import Mathlib

/-!
Verification development for the to-do-list repository: a shallow embedding of
the task-store ordering declaration, the test-report aggregator
(`tasks/test_report.py`), and the two Selenium end-to-end drivers
(`tasks/test_e2e_selenium.py`, `tasks/test_e2e_cross_impact.py`), together
with theorems settling the behavioural claims about them.
-/

namespace TodoList

/-! ## Task store and its declared ordering -/

/-- A row of the single `Task` table: `id`, `title`, `complete`, `priority`
(added by migration 0002, default `False`), and the immutable `created`
timestamp, modelled as a `Nat` tick. -/
structure Task where
  id : Nat
  title : String
  complete : Bool
  priority : Bool
  created : Nat
deriving DecidableEq

/-- The comparison induced by the model options `ordering = ['-priority', 'created']`
declared in `migrations/0002_add_priority.py`: `priority` descending
(`true` sorts before `false`), then `created` ascending. -/
def taskLe (a b : Task) : Bool :=
  if a.priority == b.priority then decide (a.created ≤ b.created) else a.priority

/-- Modelled from the spec: the store's `list()` operation (the Django view
code invoking `Task.objects.all()` is not present under `src/`): it returns
all stored tasks ordered by the `Meta.ordering` option `['-priority', 'created']`
declared in `migrations/0002_add_priority.py`. -/
def list_tasks (store : List Task) : List Task :=
  store.mergeSort taskLe

/-! ## Test-report aggregator data model (`tasks/test_report.py`)

Manifest entries and result records are Python dicts read with `.get`, so
every field is optional. -/

/-- A manifest entry from `test_list.yaml`: keys `test_case_id`, `name`,
`type`, each possibly absent. -/
structure TestCase where
  test_case_id : Option String
  name : Option String
  type : Option String
deriving DecidableEq

/-- A test result record from an execution-report JSON file. Only
`test_case_id` and `status` are consulted by the classification logic
(the remaining keys `test_name`, `test_class`, `message`, `error`,
`metrics` feed the failure-details printout only). -/
structure TestResult where
  test_case_id : Option String
  status : Option String
deriving DecidableEq

/-- The top-level shape of a loaded execution report: a dict whose `tests`
key (possibly absent) holds the result records. -/
structure JsonResults where
  tests : Option (List TestResult)
deriving DecidableEq

/-- The `.get('tests', [])` access used throughout `test_report.py`. -/
def JsonResults.getTests (r : JsonResults) : List TestResult :=
  r.tests.getD []

/-- The state of a file on disk as seen by a loader: absent, present but
unparseable, or parsed into data of type `α`. -/
inductive FileState (α : Type) where
  | missing
  | parseError (msg : String)
  | parsed (data : α)
deriving DecidableEq

/-- Embedding of `load_yaml_tests` (`test_report.py:12`): a missing file or a
YAML parse error prints a diagnostic and exits with code 1 (modelled as
`Except.error` carrying the diagnostic); otherwise return `data.get('tests', [])`. -/
def load_yaml_tests (yaml_path : String) :
    FileState (Option (List TestCase)) → Except String (List TestCase)
  | .missing => .error ("❌ Error: File not found: " ++ yaml_path)
  | .parseError e => .error ("❌ Error parsing YAML: " ++ e)
  | .parsed data => .ok (data.getD [])

/-- Embedding of `load_json_results` (`test_report.py:26`): a missing file
yields `{'tests': []}`, a JSON parse error warns and yields `{'tests': []}`,
otherwise the parsed data is returned as-is. -/
def load_json_results : FileState JsonResults → JsonResults
  | .missing => ⟨some []⟩
  | .parseError _ => ⟨some []⟩
  | .parsed data => data

/-- Embedding of `find_test_result` (`test_report.py:40`): scan the `tests`
list in order and return the first record whose `test_case_id` equals the
requested id (the Python loop returns on the first match). -/
def find_test_result (test_case_id : String) (json_results : JsonResults) :
    Option TestResult :=
  json_results.getTests.find? (fun t => t.test_case_id == some test_case_id)

/-- The status-to-icon mapping applied to a found record's
`result.get('status', '')` by `get_status_icon` (`test_report.py:63`). -/
def status_icon_of (status : String) : String × String :=
  if status == "PASS" then ("✅", "Passed")
  else if status == "FAIL" then ("❌", "Failed")
  else if status == "ERROR" then ("❌", "Error")
  else if status == "SKIP" then ("⏭️", "Skipped")
  else ("❓", "Unknown")

/-- Embedding of `get_status_icon` (`test_report.py:48`): entries of type
`'manuel'` are classified manual without consulting any report; otherwise the
merged results are searched, a missing record classifies as not found, and a
found record's status is mapped by `status_icon_of`. -/
def get_status_icon (test : TestCase) (json_results : JsonResults) :
    String × String :=
  let test_type := test.type.getD ""
  let test_case_id := test.test_case_id.getD ""
  if test_type == "manuel" then ("🫱", "Manual test needed")
  else
    match find_test_result test_case_id json_results with
    | none => ("🕳️", "Not found")
    | some result => status_icon_of (result.status.getD "")

/-- The merge performed by `generate_report` (`test_report.py:94`): the auto
report's tests concatenated with the selenium report's tests, in that order. -/
def merge_results (auto selenium : JsonResults) : JsonResults :=
  ⟨some (auto.getTests ++ selenium.getTests)⟩

/-- One per-test output line of `generate_report` (`test_report.py:103`),
carrying `test.get('test_case_id', 'N/A')`, `test.get('type', 'unknown')` and
the classification pair. -/
structure ReportLine where
  test_case_id : String
  type : String
  icon : String
  statusText : String
deriving DecidableEq

/-- Count of manifest entries with `t.get('type') == 'manuel'`
(`test_report.py:116`). -/
def manual_count (tests : List TestCase) : Nat :=
  (tests.filter (fun t => t.type == some "manuel")).length

/-- Count of non-manual manifest entries classified `'Passed'` by the summary
loop (`test_report.py:125`). -/
def passed_count (tests : List TestCase) (rs : JsonResults) : Nat :=
  (tests.filter (fun t => t.type != some "manuel")).countP
    (fun t => (get_status_icon t rs).2 == "Passed")

/-- Count of non-manual manifest entries classified `'Failed'` or `'Error'`
by the summary loop (`test_report.py:130`). -/
def failed_count (tests : List TestCase) (rs : JsonResults) : Nat :=
  (tests.filter (fun t => t.type != some "manuel")).countP
    (fun t => (get_status_icon t rs).2 == "Failed"
      || (get_status_icon t rs).2 == "Error")

/-- Count of non-manual manifest entries classified `'Not found'` by the
summary loop (`test_report.py:132`). -/
def not_found_count (tests : List TestCase) (rs : JsonResults) : Nat :=
  (tests.filter (fun t => t.type != some "manuel")).countP
    (fun t => (get_status_icon t rs).2 == "Not found")

/-- Non-manual manifest entries the summary loop counts in no bucket: those
classified `'Skipped'` or `'Unknown'` (no branch of `test_report.py:128-133`
matches them). -/
def uncounted_count (tests : List TestCase) (rs : JsonResults) : Nat :=
  (tests.filter (fun t => t.type != some "manuel")).countP
    (fun t => (get_status_icon t rs).2 == "Skipped"
      || (get_status_icon t rs).2 == "Unknown")

/-- The summary block printed by `generate_report` (`test_report.py:115`):
totals by declared type and the passed/failed/not-found buckets. The printed
percentages are display-only float formatting of these counts and are not
modelled. -/
structure Summary where
  total : Nat
  auto_unittest : Nat
  auto_selenium : Nat
  manual : Nat
  passed : Nat
  failed : Nat
  not_found : Nat
deriving DecidableEq

/-- The observable output of a successful `generate_report` run: the per-test
lines and the summary. -/
structure Report where
  lines : List ReportLine
  summary : Summary
deriving DecidableEq

/-- Embedding of `generate_report` (`test_report.py:76`): load both execution
reports (total, never failing), merge them auto-first, load the manifest
(fatal on failure, which aborts before any per-test line or summary is
produced), then emit one line per manifest entry and the summary counts. -/
def generate_report (yaml_path : String) (auto selenium : FileState JsonResults)
    (manifest : FileState (Option (List TestCase))) : Except String Report :=
  let json_auto_results := load_json_results auto
  let json_selenium_results := load_json_results selenium
  let json_results := merge_results json_auto_results json_selenium_results
  match load_yaml_tests yaml_path manifest with
  | .error e => .error e
  | .ok tests =>
      .ok
        { lines := tests.map (fun t =>
            let pair := get_status_icon t json_results
            { test_case_id := t.test_case_id.getD "N/A"
              type := t.type.getD "unknown"
              icon := pair.1
              statusText := pair.2 })
          summary :=
            { total := tests.length
              auto_unittest :=
                (tests.filter (fun t => t.type == some "auto-unittest")).length
              auto_selenium :=
                (tests.filter (fun t => t.type == some "auto-selenium")).length
              manual := manual_count tests
              passed := passed_count tests json_results
              failed := failed_count tests json_results
              not_found := not_found_count tests json_results } }

/-- The process exit status of an aggregator run: `sys.exit(1)` on the fatal
manifest path (`test_report.py:20,23`), normal termination otherwise. -/
def report_exit_code : Except String Report → Nat
  | .error _ => 1
  | .ok _ => 0

/-! ## End-to-end driver verdicts and report persistence -/

/-- A Test Result Record written by an E2E driver run. Only the fields the
save logic consults are modelled: `test_case_id` and `status` (the drivers'
`message`, `error`, `steps`, `timestamp` and the float `duration_seconds`
are display-only payload). -/
structure RunRecord where
  test_case_id : String
  status : String
deriving DecidableEq

/-- The persisted report file shape both drivers write to
`result_test_selenium.json`: summary counts plus the `tests` list. The float
fields `success_rate` and `duration_seconds` of the summary are display-only
formatting and are not modelled. -/
structure SavedReport where
  total : Nat
  passed : Nat
  failed : Nat
  errors : Nat
  skipped : Nat
  tests : List RunRecord
deriving DecidableEq

/-- The pre-existing `tests` list recovered by the cross-impact driver's
loader (`test_e2e_cross_impact.py:190`): a missing or unparseable file
contributes the empty list. -/
def load_existing_tests : FileState SavedReport → List RunRecord
  | .missing => []
  | .parseError _ => []
  | .parsed data => data.tests

/-- Embedding of `TodoE2ETest.save_json_report` (`test_e2e_selenium.py:152`):
the written report is built from the current run's record alone — the file's
previous content is never read, so the `tests` list written is exactly
`[self.test_results]` and the counts describe that single record. -/
def selenium_save_json_report (current : RunRecord)
    (_previous : FileState SavedReport) : SavedReport :=
  { total := 1
    passed := if current.status == "PASS" then 1 else 0
    failed := if current.status == "FAIL" then 1 else 0
    errors := if current.status == "ERROR" then 1 else 0
    skipped := 0
    tests := [current] }

/-- Embedding of `TodoCrossImpactTest.save_json_report`
(`test_e2e_cross_impact.py:179`): load the pre-existing tests (empty on a
missing or corrupt file), append the current record, and recompute the
summary counts over the combined list. -/
def cross_save_json_report (current : RunRecord)
    (previous : FileState SavedReport) : SavedReport :=
  let existing_tests := load_existing_tests previous
  let all_tests := existing_tests ++ [current]
  { total := all_tests.length
    passed := (all_tests.filter (fun t => t.status == "PASS")).length
    failed := (all_tests.filter (fun t => t.status == "FAIL")).length
    errors := (all_tests.filter (fun t => t.status == "ERROR")).length
    skipped := 0
    tests := all_tests }

/-- Embedding of the verdict step of `TodoCrossImpactTest.run_test`
(`test_e2e_cross_impact.py:311`): PASS exactly when the first task still
exists and the second does not; otherwise FAIL with the `'; '`-joined list of
violated conditions. -/
def cross_impact_verdict (first_exists_after second_exists_after : Bool) :
    String × String :=
  if first_exists_after && !second_exists_after then
    ("PASS", "Cross-impact verification successful")
  else
    let error_msg :=
      (if !first_exists_after then ["First task was deleted"] else [])
        ++ (if second_exists_after then ["Second task still exists"] else [])
    ("FAIL", String.intercalate "; " error_msg)

/-- Embedding of the verdict step of `TodoE2ETest.run_test`
(`test_e2e_selenium.py:260`): PASS exactly when 10 tasks were created, as
many were deleted as created, and the final displayed count equals the
initial one; otherwise FAIL with the `'; '`-joined list of failed checks. -/
def e2e_verdict (initial_count created_count deleted_count final_count : Nat) :
    String × String :=
  let creation_success := created_count == 10
  let deletion_success := deleted_count == created_count
  let final_count_match := final_count == initial_count
  if creation_success && deletion_success && final_count_match then
    ("PASS", "All operations completed successfully")
  else
    let errors :=
      (if !creation_success then
          ["Created " ++ toString created_count ++ "/10"] else [])
        ++ (if !deletion_success then
          ["Deleted " ++ toString deleted_count ++ "/"
            ++ toString created_count] else [])
        ++ (if !final_count_match then
          ["Final count " ++ toString final_count ++ " != "
            ++ toString initial_count] else [])
    ("FAIL", String.intercalate "; " errors)

/-! ## Concrete inputs used to exercise the definitions -/

/-- The spec's three-case scenario manifest: one manual, one unit-level
automated, one browser-level automated entry (the code's type strings for
the spec's manual / auto-unit / auto-browser vocabulary). -/
def scenario_manifest : List TestCase :=
  [{ test_case_id := some "TC_M", name := some "Manual case",
     type := some "manuel" },
   { test_case_id := some "TC_U", name := some "Unit case",
     type := some "auto-unittest" },
   { test_case_id := some "TC_S", name := some "Browser case",
     type := some "auto-selenium" }]

/-- The scenario's single execution report: only the unit-level case, with
status PASS. -/
def scenario_auto_report : JsonResults :=
  ⟨some [{ test_case_id := some "TC_U", status := some "PASS" }]⟩

/-- A manifest entry whose id occurs twice across the merged reports. -/
def dup_entry : TestCase :=
  { test_case_id := some "TC_D", name := some "Duplicated case",
    type := some "auto-unittest" }

/-- An auto report holding a FAIL record for the duplicated id. -/
def dup_auto_report : JsonResults :=
  ⟨some [{ test_case_id := some "TC_D", status := some "FAIL" }]⟩

/-- A selenium report holding a later PASS record for the duplicated id. -/
def dup_selenium_report : JsonResults :=
  ⟨some [{ test_case_id := some "TC_D", status := some "PASS" }]⟩

/-- A record already present in the persisted selenium report file. -/
def prior_run_record : RunRecord :=
  { test_case_id := "TC016", status := "PASS" }

/-- The record of a fresh driver run, to be saved into the same file. -/
def new_run_record : RunRecord :=
  { test_case_id := "TC017", status := "FAIL" }

/-- A manifest used to exercise the summary counts: one manual entry, one
passing entry, one skipped entry. -/
def skip_manifest : List TestCase :=
  [{ test_case_id := some "TC_M", name := some "Manual case",
     type := some "manuel" },
   { test_case_id := some "TC_P", name := some "Passing case",
     type := some "auto-unittest" },
   { test_case_id := some "TC_K", name := some "Skipped case",
     type := some "auto-unittest" }]

/-- Results for `skip_manifest`: the passing entry has PASS, the skipped
entry has SKIP. -/
def skip_results : JsonResults :=
  ⟨some [{ test_case_id := some "TC_P", status := some "PASS" },
         { test_case_id := some "TC_K", status := some "SKIP" }]⟩

/-! ## Helper lemmas -/

/-- The declared task ordering is transitive. -/
theorem taskLe_trans (a b c : Task) : taskLe a b → taskLe b c → taskLe a c := by
  intro hab hbc
  cases ha : a.priority <;> cases hb : b.priority <;> cases hc : c.priority <;>
    simp_all [taskLe] <;> omega

/-- The declared task ordering is total. -/
theorem taskLe_total (a b : Task) : taskLe a b || taskLe b a := by
  cases ha : a.priority <;> cases hb : b.priority <;>
    simp_all [taskLe] <;> omega

/-! ## Claim theorems -/

/-- C1: in `list()`, every priority task precedes every non-priority task,
and among tasks of equal priority the earlier-created one precedes the other
(the output also remains a permutation of the store). -/
theorem list_tasks_ordering (store : List Task) :
    List.Perm (list_tasks store) store ∧
    (list_tasks store).Pairwise (fun a b =>
      (b.priority = true → a.priority = true) ∧
      (a.priority = b.priority → a.created ≤ b.created)) := by
  constructor
  · exact List.mergeSort_perm store taskLe
  · refine List.Pairwise.imp ?_ (List.sorted_mergeSort taskLe_trans taskLe_total store)
    intro a b h
    cases ha : a.priority <;> cases hb : b.priority <;>
      simp_all [taskLe]

/-- C3: a manifest entry of the manual type is classified manual regardless
of the results; otherwise a missing record classifies as not found, and a
found record's status maps PASS to passed, FAIL and ERROR both to the failed
icon, SKIP to skipped, and anything else to unknown. -/
theorem get_status_icon_cases (test : TestCase) (rs : JsonResults) :
    (test.type = some "manuel" →
        get_status_icon test rs = ("🫱", "Manual test needed"))
  ∧ (test.type ≠ some "manuel" →
      (find_test_result (test.test_case_id.getD "") rs = none →
          get_status_icon test rs = ("🕳️", "Not found"))
    ∧ (∀ r, find_test_result (test.test_case_id.getD "") rs = some r →
        (r.status.getD "" = "PASS" →
            get_status_icon test rs = ("✅", "Passed"))
      ∧ (r.status.getD "" = "FAIL" →
            get_status_icon test rs = ("❌", "Failed"))
      ∧ (r.status.getD "" = "ERROR" →
            get_status_icon test rs = ("❌", "Error"))
      ∧ ((r.status.getD "" = "FAIL" ∨ r.status.getD "" = "ERROR") →
            (get_status_icon test rs).1 = "❌")
      ∧ (r.status.getD "" = "SKIP" →
            get_status_icon test rs = ("⏭️", "Skipped"))
      ∧ (r.status.getD "" ∉ (["PASS", "FAIL", "ERROR", "SKIP"] : List String) →
            get_status_icon test rs = ("❓", "Unknown")))) := by
  constructor
  · intro h
    simp [get_status_icon, h]
  · intro h
    have hty : (test.type.getD "" == "manuel") = false := by
      cases hT : test.type <;> simp_all
    constructor
    · intro hf
      simp [get_status_icon, hty, hf]
    · intro r hr
      refine ⟨?_, ?_, ?_, ?_, ?_, ?_⟩ <;> intro hs
      · simp [get_status_icon, hty, hr, status_icon_of, hs]
      · simp [get_status_icon, hty, hr, status_icon_of, hs]
      · simp [get_status_icon, hty, hr, status_icon_of, hs]
      · rcases hs with hs | hs <;>
          simp [get_status_icon, hty, hr, status_icon_of, hs]
      · simp [get_status_icon, hty, hr, status_icon_of, hs]
      · simp only [List.mem_cons, List.not_mem_nil, or_false, not_or] at hs
        simp [get_status_icon, hty, hr, status_icon_of,
          hs.1, hs.2.1, hs.2.2.1, hs.2.2.2]

/-- Witness for C3: the theorem applied on concrete inputs, covering the
manual, not-found, passed, failed-by-FAIL, skipped and unknown branches. -/
theorem get_status_icon_cases_witness :
    (get_status_icon dup_entry ⟨some []⟩ = ("🕳️", "Not found"))
  ∧ (get_status_icon { dup_entry with type := some "manuel" } ⟨some []⟩
        = ("🫱", "Manual test needed"))
  ∧ (get_status_icon dup_entry
        ⟨some [{ test_case_id := some "TC_D", status := some "PASS" }]⟩
        = ("✅", "Passed"))
  ∧ (get_status_icon dup_entry
        ⟨some [{ test_case_id := some "TC_D", status := some "FAIL" }]⟩
        = ("❌", "Failed"))
  ∧ (get_status_icon dup_entry
        ⟨some [{ test_case_id := some "TC_D", status := some "SKIP" }]⟩
        = ("⏭️", "Skipped"))
  ∧ (get_status_icon dup_entry
        ⟨some [{ test_case_id := some "TC_D", status := some "WEIRD" }]⟩
        = ("❓", "Unknown")) :=
  ⟨((get_status_icon_cases dup_entry ⟨some []⟩).2 (by decide)).1 (by decide),
   (get_status_icon_cases { dup_entry with type := some "manuel" }
      ⟨some []⟩).1 rfl,
   (((get_status_icon_cases dup_entry
      ⟨some [{ test_case_id := some "TC_D", status := some "PASS" }]⟩).2
      (by decide)).2
      { test_case_id := some "TC_D", status := some "PASS" }
      (by decide)).1 rfl,
   ((((get_status_icon_cases dup_entry
      ⟨some [{ test_case_id := some "TC_D", status := some "FAIL" }]⟩).2
      (by decide)).2
      { test_case_id := some "TC_D", status := some "FAIL" }
      (by decide)).2).1 rfl,
   (((((get_status_icon_cases dup_entry
      ⟨some [{ test_case_id := some "TC_D", status := some "SKIP" }]⟩).2
      (by decide)).2
      { test_case_id := some "TC_D", status := some "SKIP" }
      (by decide)).2).2).2.2.1 rfl,
   (((((get_status_icon_cases dup_entry
      ⟨some [{ test_case_id := some "TC_D", status := some "WEIRD" }]⟩).2
      (by decide)).2
      { test_case_id := some "TC_D", status := some "WEIRD" }
      (by decide)).2).2).2.2.2 (by decide)⟩

/-- Counterexample to C2: with a FAIL record for `TC_D` in the auto report
and a PASS record for the same id in the selenium report, the final
occurrence in report-load order has status PASS (which would classify as
passed), yet the classification is failed — the lookup returns the first
occurrence, not the last. -/
theorem find_test_result_not_last_seen :
    (merge_results dup_auto_report dup_selenium_report).getTests.getLast?
      = some { test_case_id := some "TC_D", status := some "PASS" }
  ∧ find_test_result "TC_D" (merge_results dup_auto_report dup_selenium_report)
      = some { test_case_id := some "TC_D", status := some "FAIL" }
  ∧ get_status_icon dup_entry (merge_results dup_auto_report dup_selenium_report)
      = ("❌", "Failed")
  ∧ status_icon_of "PASS" = ("✅", "Passed")
  ∧ (("❌", "Failed") : String × String) ≠ ("✅", "Passed") := by
  refine ⟨rfl, rfl, rfl, rfl, by decide⟩

/-- C2 amended: when a `test_case_id` occurs more than once across the
concatenated auto and selenium reports, the lookup used for classification
returns the FIRST occurrence in report-load order, and the entry's
classification is computed from that first occurrence. -/
theorem find_test_result_first_seen (test : TestCase) (id : String)
    (pre post : List TestResult) (r : TestResult)
    (hid : test.test_case_id = some id)
    (hty : test.type ≠ some "manuel")
    (hr : r.test_case_id = some id)
    (hpre : ∀ t ∈ pre, t.test_case_id ≠ some id) :
    find_test_result id ⟨some (pre ++ r :: post)⟩ = some r
  ∧ get_status_icon test ⟨some (pre ++ r :: post)⟩
      = status_icon_of (r.status.getD "") := by
  have hfind : find_test_result id ⟨some (pre ++ r :: post)⟩ = some r := by
    have hnone : pre.find? (fun t => t.test_case_id == some id) = none := by
      rw [List.find?_eq_none]
      intro t ht
      simpa using hpre t ht
    simp [find_test_result, JsonResults.getTests, List.find?_append, hnone,
      List.find?_cons_of_pos, hr]
  refine ⟨hfind, ?_⟩
  have hty' : (test.type.getD "" == "manuel") = false := by
    cases hT : test.type <;> simp_all
  simp [get_status_icon, hty', hid, hfind]

/-- Witness for the amended C2: with a non-matching record first, then a
FAIL record for `TC_D`, then a PASS record for the same id, the lookup
returns the FAIL record and the entry classifies as failed. -/
theorem find_test_result_first_seen_witness :
    find_test_result "TC_D"
      ⟨some ([{ test_case_id := some "TC_X", status := some "PASS" }]
        ++ { test_case_id := some "TC_D", status := some "FAIL" }
          :: [{ test_case_id := some "TC_D", status := some "PASS" }])⟩
      = some { test_case_id := some "TC_D", status := some "FAIL" }
  ∧ get_status_icon dup_entry
      ⟨some ([{ test_case_id := some "TC_X", status := some "PASS" }]
        ++ { test_case_id := some "TC_D", status := some "FAIL" }
          :: [{ test_case_id := some "TC_D", status := some "PASS" }])⟩
      = status_icon_of "FAIL" :=
  find_test_result_first_seen dup_entry "TC_D"
    [{ test_case_id := some "TC_X", status := some "PASS" }]
    [{ test_case_id := some "TC_D", status := some "PASS" }]
    { test_case_id := some "TC_D", status := some "FAIL" }
    rfl (by decide) rfl (by decide)

/-- C5: on the three-case scenario manifest with a single report holding only
the unit-level case as PASS, the aggregator classifies the manual entry as
manual, the unit entry as passed and the browser entry as not found. -/
theorem scenario_report :
    generate_report "test_list.yaml" (.parsed scenario_auto_report) .missing
        (.parsed (some scenario_manifest))
      = .ok
          { lines :=
              [{ test_case_id := "TC_M", type := "manuel",
                 icon := "🫱", statusText := "Manual test needed" },
               { test_case_id := "TC_U", type := "auto-unittest",
                 icon := "✅", statusText := "Passed" },
               { test_case_id := "TC_S", type := "auto-selenium",
                 icon := "🕳️", statusText := "Not found" }]
            summary :=
              { total := 3, auto_unittest := 1, auto_selenium := 1,
                manual := 1, passed := 1, failed := 0, not_found := 1 } } := by
  rfl

/-- C6: a missing or unparseable manifest is fatal: the aggregator yields the
diagnostic error message, the process exit code is 1, and no report output is
produced. -/
theorem manifest_failure_fatal (yaml_path : String)
    (auto selenium : FileState JsonResults)
    (m : FileState (Option (List TestCase))) :
    (m = .missing →
        generate_report yaml_path auto selenium m
          = .error ("❌ Error: File not found: " ++ yaml_path))
  ∧ (∀ e, m = .parseError e →
        generate_report yaml_path auto selenium m
          = .error ("❌ Error parsing YAML: " ++ e))
  ∧ ((m = .missing ∨ ∃ e, m = .parseError e) →
        report_exit_code (generate_report yaml_path auto selenium m) = 1
      ∧ ∀ rep, generate_report yaml_path auto selenium m ≠ .ok rep) := by
  refine ⟨?_, ?_, ?_⟩
  · intro h
    subst h
    rfl
  · intro e h
    subst h
    rfl
  · rintro (h | ⟨e, h⟩) <;> subst h <;>
      exact ⟨rfl, fun rep h => by simp [generate_report, load_yaml_tests] at h⟩

/-- Witness for C6: the theorem applied with a missing manifest and with a
corrupt manifest, at concrete report inputs. -/
theorem manifest_failure_fatal_witness :
    generate_report "test_list.yaml" .missing .missing FileState.missing
      = .error ("❌ Error: File not found: " ++ "test_list.yaml")
  ∧ generate_report "test_list.yaml" .missing .missing
        (FileState.parseError "bad yaml")
      = .error ("❌ Error parsing YAML: " ++ "bad yaml")
  ∧ report_exit_code
      (generate_report "test_list.yaml" .missing .missing FileState.missing)
      = 1 :=
  ⟨(manifest_failure_fatal "test_list.yaml" .missing .missing .missing).1 rfl,
   (manifest_failure_fatal "test_list.yaml" .missing .missing
      (.parseError "bad yaml")).2.1 "bad yaml" rfl,
   ((manifest_failure_fatal "test_list.yaml" .missing .missing .missing).2.2
      (Or.inl rfl)).1⟩

/-- C7: a missing or malformed execution report loads as the empty result
structure `{'tests': []}`; merged either way it contributes no records, so
every downstream classification sees only the other report's records. -/
theorem load_json_results_resilient (f : FileState JsonResults)
    (h : f = .missing ∨ ∃ e, f = .parseError e) :
    load_json_results f = ⟨some []⟩
  ∧ (load_json_results f).getTests = []
  ∧ (∀ other : JsonResults,
        merge_results (load_json_results f) other = ⟨some other.getTests⟩
      ∧ merge_results other (load_json_results f) = ⟨some other.getTests⟩)
  ∧ (∀ (other : JsonResults) (t : TestCase),
        get_status_icon t (merge_results (load_json_results f) other)
          = get_status_icon t ⟨some other.getTests⟩) := by
  rcases h with h | ⟨e, h⟩ <;> subst h <;>
    exact ⟨rfl, rfl,
      fun other => ⟨by simp [merge_results, load_json_results, JsonResults.getTests],
        by simp [merge_results, load_json_results, JsonResults.getTests]⟩,
      fun other t => by
        simp [merge_results, load_json_results, JsonResults.getTests]⟩

/-- Witness for C7: the theorem applied to a missing report file and to the
scenario's auto report as the other source. -/
theorem load_json_results_resilient_witness :
    load_json_results FileState.missing = ⟨some []⟩
  ∧ merge_results (load_json_results FileState.missing) scenario_auto_report
      = ⟨some scenario_auto_report.getTests⟩
  ∧ get_status_icon dup_entry
      (merge_results (load_json_results FileState.missing) scenario_auto_report)
      = get_status_icon dup_entry ⟨some scenario_auto_report.getTests⟩ :=
  ⟨(load_json_results_resilient .missing (Or.inl rfl)).1,
   ((load_json_results_resilient .missing (Or.inl rfl)).2.2.1
      scenario_auto_report).1,
   (load_json_results_resilient .missing (Or.inl rfl)).2.2.2
      scenario_auto_report dup_entry⟩

/-- C8: the cross-impact verdict is PASS exactly when the first task still
exists and the second no longer does; in every other completed case it is
FAIL, with a message naming each violated condition. -/
theorem cross_impact_verdict_spec (f s : Bool) :
    ((cross_impact_verdict f s).1 = "PASS" ↔ (f = true ∧ s = false))
  ∧ ((f = true ∧ s = false) →
      cross_impact_verdict f s
        = ("PASS", "Cross-impact verification successful"))
  ∧ (¬(f = true ∧ s = false) → (cross_impact_verdict f s).1 = "FAIL")
  ∧ (f = false → s = false →
      (cross_impact_verdict f s).2 = "First task was deleted")
  ∧ (f = true → s = true →
      (cross_impact_verdict f s).2 = "Second task still exists")
  ∧ (f = false → s = true →
      (cross_impact_verdict f s).2
        = "First task was deleted; Second task still exists") := by
  revert f s
  decide

/-- Witness for C8: the theorem applied to the passing run and to the run in
which both conditions are violated. -/
theorem cross_impact_verdict_spec_witness :
    cross_impact_verdict true false
      = ("PASS", "Cross-impact verification successful")
  ∧ (cross_impact_verdict false true).1 = "FAIL"
  ∧ (cross_impact_verdict false true).2
      = "First task was deleted; Second task still exists" :=
  ⟨(cross_impact_verdict_spec true false).2.1 ⟨rfl, rfl⟩,
   (cross_impact_verdict_spec false true).2.2.1 (by simp),
   (cross_impact_verdict_spec false true).2.2.2.2.2 rfl rfl⟩

/-- C9: the CRUD-cycle verdict is PASS exactly when 10 tasks were created,
as many were deleted as created, and the final displayed count equals the
initial one; otherwise it is FAIL. -/
theorem e2e_verdict_spec (i c d f : Nat) :
    ((e2e_verdict i c d f).1 = "PASS" ↔ (c = 10 ∧ d = c ∧ f = i))
  ∧ ((c = 10 ∧ d = c ∧ f = i) →
      e2e_verdict i c d f = ("PASS", "All operations completed successfully"))
  ∧ (¬(c = 10 ∧ d = c ∧ f = i) → (e2e_verdict i c d f).1 = "FAIL") := by
  by_cases h : c = 10 ∧ d = c ∧ f = i
  · obtain ⟨h1, h2, h3⟩ := h
    subst h1
    subst h2
    subst h3
    simp [e2e_verdict]
  · have hb : ((c == 10) && ((d == c) && (f == i))) = false := by
      rw [Bool.eq_false_iff]
      intro hb
      simp only [Bool.and_eq_true, beq_iff_eq] at hb
      exact h ⟨hb.1, hb.2.1, hb.2.2⟩
    have hb' : ((c == 10) && (d == c) && (f == i)) = false := by
      cases hc : (c == 10) <;> cases hd : (d == c) <;> cases hf : (f == i) <;>
        simp_all
    simp [e2e_verdict, hb', h]

/-- Witness for C9: the theorem applied to a clean run of 10 creations and
deletions returning to the baseline, and to a run that deleted one task too
few. -/
theorem e2e_verdict_spec_witness :
    e2e_verdict 2 10 10 2 = ("PASS", "All operations completed successfully")
  ∧ (e2e_verdict 2 10 9 3).1 = "FAIL" :=
  ⟨(e2e_verdict_spec 2 10 10 2).2.1 ⟨rfl, rfl, rfl⟩,
   (e2e_verdict_spec 2 10 9 3).2.2 (by simp)⟩

/-- Counterexample to C4: the CRUD-cycle driver's save, given a file already
holding one record, writes a report whose tests list is just its own record
— the pre-existing record is not preserved. -/
theorem selenium_save_overwrites :
    (selenium_save_json_report new_run_record
        (.parsed
          { total := 1, passed := 1, failed := 0, errors := 0, skipped := 0,
            tests := [prior_run_record] })).tests
      = [new_run_record]
  ∧ load_existing_tests
      (.parsed
        { total := 1, passed := 1, failed := 0, errors := 0, skipped := 0,
          tests := [prior_run_record] })
      = [prior_run_record]
  ∧ (selenium_save_json_report new_run_record
        (.parsed
          { total := 1, passed := 1, failed := 0, errors := 0, skipped := 0,
            tests := [prior_run_record] })).tests
      ≠ [prior_run_record] ++ [new_run_record] := by
  refine ⟨rfl, rfl, by decide⟩

/-- C4 amended: only the cross-impact driver's save is load-merge-rewrite —
its written tests list is the file's previous tests plus the new record, and
the summary counts are recomputed over that combined list; the CRUD-cycle
driver's save instead overwrites the file with its own single record,
regardless of the file's previous content. -/
theorem save_json_report_contracts (current : RunRecord)
    (previous : FileState SavedReport) :
    (cross_save_json_report current previous).tests
      = load_existing_tests previous ++ [current]
  ∧ (cross_save_json_report current previous).total
      = (load_existing_tests previous ++ [current]).length
  ∧ (cross_save_json_report current previous).passed
      = ((load_existing_tests previous ++ [current]).filter
          (fun t => t.status == "PASS")).length
  ∧ (cross_save_json_report current previous).failed
      = ((load_existing_tests previous ++ [current]).filter
          (fun t => t.status == "FAIL")).length
  ∧ (cross_save_json_report current previous).errors
      = ((load_existing_tests previous ++ [current]).filter
          (fun t => t.status == "ERROR")).length
  ∧ (selenium_save_json_report current previous).tests = [current] :=
  ⟨rfl, rfl, rfl, rfl, rfl, rfl⟩

/-- A non-manual manifest entry always classifies as one of the six
non-manual status texts. -/
theorem statusText_mem (t : TestCase) (rs : JsonResults)
    (h : t.type ≠ some "manuel") :
    (get_status_icon t rs).2
      ∈ (["Not found", "Passed", "Failed", "Error", "Skipped", "Unknown"] :
          List String) := by
  have hty : (t.type.getD "" == "manuel") = false := by
    cases hT : t.type <;> simp_all
  simp only [get_status_icon, hty, Bool.false_eq_true, if_false]
  cases hfind : find_test_result (t.test_case_id.getD "") rs with
  | none => simp
  | some r =>
    simp only [status_icon_of]
    split
    · simp
    · split
      · simp
      · split
        · simp
        · split <;> simp

/-- The five summary quantities partition the manifest: passed, failed,
not-found, manual and the uncounted skipped/unknown entries add up to the
total number of manifest entries. -/
theorem summary_partition (tests : List TestCase) (rs : JsonResults) :
    passed_count tests rs + failed_count tests rs + not_found_count tests rs
      + manual_count tests + uncounted_count tests rs = tests.length := by
  induction tests with
  | nil =>
    simp [passed_count, failed_count, not_found_count, manual_count,
      uncounted_count]
  | cons t ts ih =>
    by_cases hm : t.type = some "manuel"
    · simp [passed_count, failed_count, not_found_count, manual_count,
        uncounted_count, List.filter_cons, hm] at *
      omega
    · have hv := statusText_mem t rs hm
      have hbne : (t.type != some "manuel") = true := by
        simp [bne, hm]
      simp only [List.mem_cons, List.not_mem_nil, or_false] at hv
      obtain h | h | h | h | h | h := hv <;>
        · simp only [passed_count, failed_count, not_found_count, manual_count,
            uncounted_count, List.filter_cons, hbne, if_true, List.countP_cons,
            h, List.length_cons] at *
          simp only [show (t.type == some "manuel") = false by simp [hm],
            Bool.false_eq_true, if_false]
          simp +decide
          omega

/-- C10: the printed summary buckets undercount: passed + failed + not-found
+ manual never exceeds the number of manifest entries, and is strictly below
it whenever some non-manual entry classifies as skipped or unknown. -/
theorem summary_buckets_incomplete (tests : List TestCase) (rs : JsonResults) :
    passed_count tests rs + failed_count tests rs + not_found_count tests rs
        + manual_count tests ≤ tests.length
  ∧ ((∃ t ∈ tests, t.type ≠ some "manuel" ∧
        ((get_status_icon t rs).2 = "Skipped"
          ∨ (get_status_icon t rs).2 = "Unknown")) →
      passed_count tests rs + failed_count tests rs + not_found_count tests rs
        + manual_count tests < tests.length) := by
  have hpart := summary_partition tests rs
  constructor
  · omega
  · rintro ⟨t, ht, hty, hcl⟩
    have hpos : 0 < uncounted_count tests rs := by
      rw [uncounted_count, List.countP_pos_iff]
      refine ⟨t, List.mem_filter.mpr ⟨ht, by simp [bne, hty]⟩, ?_⟩
      rcases hcl with h | h <;> simp [h]
    omega

/-- Witness for C10: on a manifest with one manual, one passing and one
skipped entry the four buckets sum to 2, strictly below the 3 entries. -/
theorem summary_buckets_incomplete_witness :
    passed_count skip_manifest skip_results
      + failed_count skip_manifest skip_results
      + not_found_count skip_manifest skip_results
      + manual_count skip_manifest
      < skip_manifest.length :=
  (summary_buckets_incomplete skip_manifest skip_results).2
    ⟨{ test_case_id := some "TC_K", name := some "Skipped case",
       type := some "auto-unittest" },
     by decide, by decide, Or.inl (by decide)⟩

end TodoList
